import Mathlib

/-!
# Controller client facade of gocsi (`controller.go`)

A shallow embedding of the eight functions of `controller.go`:
`CreateVolume`, `DeleteVolume`, `ControllerPublishVolume`,
`ControllerUnpublishVolume`, `ValidateVolumeCapabilities`, `ListVolumes`,
`GetCapacity` and `ControllerGetCapabilities`.

Conventions of the embedding.

* A Go pointer `*T` is `Option T`; `nil` is `none`.
* A Go slice `[]T` is `Slice T = Option (List T)`; the nil slice is `none`,
  an empty non-nil slice is `some []`, and `len` is 0 on both.
* `uint64` and `uint32` values are natural numbers; the code only compares
  them with 0 and copies them, it does no arithmetic on them.
* A Go `error` is `Option Error`; `nil` is `none`.
* The transport stub `csi.ControllerClient` is a record of eight methods over
  an explicit stub state `σ`; a call takes the state and gives the reply
  together with the next state.
* Selecting a field through a nil pointer is a run-time panic in Go; a
  function that does so has result type `Outcome _`.
-/

namespace Gocsi

/-! ## Wire messages (package `csi`) -/

/-- A Go slice: `none` is the nil slice, `some l` a non-nil slice. -/
abbrev Slice (α : Type) := Option (List α)

/-- The built-in `len` of Go on a slice: the nil slice has length 0. -/
def len {α : Type} : Slice α → Nat
  | none => 0
  | some l => l.length

/-- The elements of a slice, in order; the nil slice has none. -/
def Slice.toList {α : Type} : Slice α → List α
  | none => []
  | some l => l

/-- A Go `map[string]string`, kept as its list of bindings; the facade never
looks inside one. -/
structure StringMap where
  bindings : List (String × String)
  deriving DecidableEq, Repr

/-- Modelled from the spec: `csi.Version` is declared outside `controller.go`;
a protocol version identifier with major, minor and patch fields. -/
structure Version where
  Major : Nat
  Minor : Nat
  Patch : Nat
  deriving DecidableEq, Repr

/-- Modelled from the spec: `csi.VolumeID`, a provider-defined key-value
identity blob. -/
structure VolumeID where
  Values : Option StringMap
  deriving DecidableEq, Repr

/-- Modelled from the spec: `csi.NodeID`, a provider-defined key-value
identity blob. -/
structure NodeID where
  Values : Option StringMap
  deriving DecidableEq, Repr

/-- Modelled from the spec: `csi.VolumeMetadata`, provider metadata as a
key-value blob. -/
structure VolumeMetadata where
  Values : Option StringMap
  deriving DecidableEq, Repr

/-- Modelled from the spec: `csi.CapacityRange`, the size constraints of a
volume creation, two unsigned bounds. -/
structure CapacityRange where
  RequiredBytes : Nat
  LimitBytes : Nat
  deriving DecidableEq, Repr

/-- Modelled from the spec: `csi.VolumeCapability_MountVolume`, a mount
capability carrying an fsType string and a list of mount flags. -/
structure VolumeCapability_MountVolume where
  FsType : String
  MountFlags : Slice String
  deriving DecidableEq, Repr

/-- Modelled from the spec: `csi.VolumeCapability_BlockVolume`, the block
capability, which carries nothing. -/
structure VolumeCapability_BlockVolume where
  deriving DecidableEq, Repr

/-- Modelled from the spec: the `Value` oneof of `csi.VolumeCapability`, a
mount capability or a block capability, each holding a pointer. -/
inductive VolumeCapability_Value where
  | Mount (Mount : Option VolumeCapability_MountVolume)
  | Block (Block : Option VolumeCapability_BlockVolume)
  deriving DecidableEq, Repr

/-- Modelled from the spec: `csi.VolumeCapability`; `Value` is the oneof
field, `none` when unset. -/
structure VolumeCapability where
  Value : Option VolumeCapability_Value
  deriving DecidableEq, Repr

/-- Modelled from the spec: `csi.VolumeInfo`, identity, size and metadata of
a volume. -/
structure VolumeInfo where
  CapacityBytes : Nat
  Id : Option VolumeID
  Metadata : Option VolumeMetadata
  deriving DecidableEq, Repr

/-- Modelled from the spec: `csi.PublishVolumeInfo`, provider-defined
attachment metadata. -/
structure PublishVolumeInfo where
  Values : Option StringMap
  deriving DecidableEq, Repr

/-- Modelled from the spec: `csi.ControllerServiceCapability`, one capability
descriptor of the controller, identified by the number of its RPC kind. -/
structure ControllerServiceCapability where
  RpcType : Nat
  deriving DecidableEq, Repr

/-! ### Requests

The field names are those of the composite literals in `controller.go`. -/

structure CreateVolumeRequest where
  Version : Option Version
  Name : String
  CapacityRange : Option CapacityRange
  VolumeCapabilities : Slice (Option VolumeCapability)
  Parameters : Option StringMap
  deriving DecidableEq, Repr

structure DeleteVolumeRequest where
  Version : Option Version
  VolumeId : Option VolumeID
  VolumeMetadata : Option VolumeMetadata
  deriving DecidableEq, Repr

structure ControllerPublishVolumeRequest where
  Version : Option Version
  VolumeId : Option VolumeID
  VolumeMetadata : Option VolumeMetadata
  NodeId : Option NodeID
  Readonly : Bool
  deriving DecidableEq, Repr

structure ControllerUnpublishVolumeRequest where
  Version : Option Version
  VolumeId : Option VolumeID
  VolumeMetadata : Option VolumeMetadata
  NodeId : Option NodeID
  deriving DecidableEq, Repr

structure ValidateVolumeCapabilitiesRequest where
  Version : Option Version
  VolumeInfo : Option VolumeInfo
  VolumeCapabilities : Slice (Option VolumeCapability)
  deriving DecidableEq, Repr

structure ListVolumesRequest where
  Version : Option Version
  MaxEntries : Nat
  StartingToken : String
  deriving DecidableEq, Repr

structure GetCapacityRequest where
  Version : Option Version
  deriving DecidableEq, Repr

structure ControllerGetCapabilitiesRequest where
  Version : Option Version
  deriving DecidableEq, Repr

/-! ### Responses -/

/-- Modelled from the spec: a response message of package `csi` is a nested
result wrapper, an envelope in which the result of the operation is either
present or absent (`none`: the reply is unset or of another shape). -/
structure Response (ρ : Type) where
  Result : Option ρ
  deriving DecidableEq, Repr

/-- Modelled from the spec: the generated accessor `GetResult` of a response
message. It is called on the pointer the stub returned and is nil-safe: a nil
response, like a response without result, gives nil. -/
def GetResult {ρ : Type} : Option (Response ρ) → Option ρ
  | none => none
  | some res => res.Result

structure CreateVolumeResponse_Result where
  VolumeInfo : Option VolumeInfo
  deriving DecidableEq, Repr

structure DeleteVolumeResponse_Result where
  deriving DecidableEq, Repr

structure ControllerPublishVolumeResponse_Result where
  PublishVolumeInfo : Option PublishVolumeInfo
  deriving DecidableEq, Repr

structure ControllerUnpublishVolumeResponse_Result where
  deriving DecidableEq, Repr

/-- Modelled from the spec: the result of a capability validation, which
encodes compatibility and confirmation details. -/
structure ValidateVolumeCapabilitiesResponse_Result where
  Supported : Bool
  Message : String
  deriving DecidableEq, Repr

structure ListVolumesResponse_Result_Entry where
  VolumeInfo : Option VolumeInfo
  deriving DecidableEq, Repr

structure ListVolumesResponse_Result where
  Entries : Slice (Option ListVolumesResponse_Result_Entry)
  NextToken : String
  deriving DecidableEq, Repr

structure GetCapacityResponse_Result where
  TotalCapacity : Nat
  deriving DecidableEq, Repr

structure ControllerGetCapabilitiesResponse_Result where
  Capabilities : Slice (Option ControllerServiceCapability)
  deriving DecidableEq, Repr

abbrev CreateVolumeResponse := Response CreateVolumeResponse_Result
abbrev DeleteVolumeResponse := Response DeleteVolumeResponse_Result
abbrev ControllerPublishVolumeResponse := Response ControllerPublishVolumeResponse_Result
abbrev ControllerUnpublishVolumeResponse := Response ControllerUnpublishVolumeResponse_Result
abbrev ValidateVolumeCapabilitiesResponse := Response ValidateVolumeCapabilitiesResponse_Result
abbrev ListVolumesResponse := Response ListVolumesResponse_Result
abbrev GetCapacityResponse := Response GetCapacityResponse_Result
abbrev ControllerGetCapabilitiesResponse := Response ControllerGetCapabilitiesResponse_Result

/-- Modelled from the spec: the generated accessor `GetVolumeInfo` of a list
entry, called on a pointer to the entry and nil-safe. -/
def GetVolumeInfo : Option ListVolumesResponse_Result_Entry → Option VolumeInfo
  | none => none
  | some e => e.VolumeInfo

/-! ## Errors, context, call options -/

/-- A Go error value, identified by its message. -/
structure Error where
  msg : String
  deriving DecidableEq, Repr

/-- Modelled from the spec: the error variable `ErrVolumeIDRequired` is
declared outside `controller.go`; the "volume ID required" condition. -/
def ErrVolumeIDRequired : Error := ⟨"volume ID required"⟩

/-- Modelled from the spec: the error variable `ErrVolumeInfoRequired`; the
"volume info required" condition. -/
def ErrVolumeInfoRequired : Error := ⟨"volume info required"⟩

/-- Modelled from the spec: the error variable `ErrVolumeCapabilityRequired`;
the "volume capability required" condition. -/
def ErrVolumeCapabilityRequired : Error := ⟨"volume capability required"⟩

/-- Modelled from the spec: the error variable `ErrNilVolumeInfo`; the
"nil volume info" error. -/
def ErrNilVolumeInfo : Error := ⟨"nil volume info"⟩

/-- A `context.Context`; the facade only hands it on to the stub. -/
structure Context where
  id : Nat
  deriving DecidableEq, Repr

/-- A `grpc.CallOption`; the facade only hands the options on to the stub. -/
structure CallOption where
  id : Nat
  deriving DecidableEq, Repr

/-- How a call of a Go function ends: it returns its results, or it panics
(here always through a nil pointer dereference). -/
inductive Outcome (α : Type) where
  | returned (results : α)
  | panicked
  deriving DecidableEq, Repr

/-! ## The transport stub -/

/-- What a stub method gives back: the Go pair `(res, err)` and the next
state of the stub. -/
abbrev Reply (σ ρ : Type) := (Option ρ × Option Error) × σ

/-- Modelled from the spec: the interface `csi.ControllerClient`, one blocking
method per RPC, each taking a context, a request message and the call
options, and returning a response message or an error. `σ` is whatever state
the stub keeps. -/
structure ControllerClient (σ : Type) where
  CreateVolume : Context → CreateVolumeRequest → List CallOption → σ →
    Reply σ CreateVolumeResponse
  DeleteVolume : Context → DeleteVolumeRequest → List CallOption → σ →
    Reply σ DeleteVolumeResponse
  ControllerPublishVolume : Context → ControllerPublishVolumeRequest → List CallOption → σ →
    Reply σ ControllerPublishVolumeResponse
  ControllerUnpublishVolume : Context → ControllerUnpublishVolumeRequest → List CallOption → σ →
    Reply σ ControllerUnpublishVolumeResponse
  ValidateVolumeCapabilities : Context → ValidateVolumeCapabilitiesRequest → List CallOption →
    σ → Reply σ ValidateVolumeCapabilitiesResponse
  ListVolumes : Context → ListVolumesRequest → List CallOption → σ →
    Reply σ ListVolumesResponse
  GetCapacity : Context → GetCapacityRequest → List CallOption → σ →
    Reply σ GetCapacityResponse
  ControllerGetCapabilities : Context → ControllerGetCapabilitiesRequest → List CallOption →
    σ → Reply σ ControllerGetCapabilitiesResponse

/-- One recorded invocation of a stub method, with everything it was handed. -/
inductive Call where
  | CreateVolume (ctx : Context) (req : CreateVolumeRequest) (opts : List CallOption)
  | DeleteVolume (ctx : Context) (req : DeleteVolumeRequest) (opts : List CallOption)
  | ControllerPublishVolume (ctx : Context) (req : ControllerPublishVolumeRequest)
      (opts : List CallOption)
  | ControllerUnpublishVolume (ctx : Context) (req : ControllerUnpublishVolumeRequest)
      (opts : List CallOption)
  | ValidateVolumeCapabilities (ctx : Context) (req : ValidateVolumeCapabilitiesRequest)
      (opts : List CallOption)
  | ListVolumes (ctx : Context) (req : ListVolumesRequest) (opts : List CallOption)
  | GetCapacity (ctx : Context) (req : GetCapacityRequest) (opts : List CallOption)
  | ControllerGetCapabilities (ctx : Context) (req : ControllerGetCapabilitiesRequest)
      (opts : List CallOption)
  deriving DecidableEq, Repr

/-- Run a stub method on the first component of a recording state and append
the invocation to the record. -/
def record {σ ρ : Type} (call : Call) (run : σ → Reply σ ρ) (w : σ × List Call) :
    Reply (σ × List Call) ρ :=
  ((run w.1).1, ((run w.1).2, w.2 ++ [call]))

/-- A transport stub that records its invocations: it behaves as `c` does and
appends every invocation, in order, to a list kept next to the state of `c`. -/
def recording {σ : Type} (c : ControllerClient σ) : ControllerClient (σ × List Call) where
  CreateVolume ctx req opts := record (.CreateVolume ctx req opts) (c.CreateVolume ctx req opts)
  DeleteVolume ctx req opts := record (.DeleteVolume ctx req opts) (c.DeleteVolume ctx req opts)
  ControllerPublishVolume ctx req opts :=
    record (.ControllerPublishVolume ctx req opts) (c.ControllerPublishVolume ctx req opts)
  ControllerUnpublishVolume ctx req opts :=
    record (.ControllerUnpublishVolume ctx req opts) (c.ControllerUnpublishVolume ctx req opts)
  ValidateVolumeCapabilities ctx req opts :=
    record (.ValidateVolumeCapabilities ctx req opts) (c.ValidateVolumeCapabilities ctx req opts)
  ListVolumes ctx req opts := record (.ListVolumes ctx req opts) (c.ListVolumes ctx req opts)
  GetCapacity ctx req opts := record (.GetCapacity ctx req opts) (c.GetCapacity ctx req opts)
  ControllerGetCapabilities ctx req opts :=
    record (.ControllerGetCapabilities ctx req opts) (c.ControllerGetCapabilities ctx req opts)

/-- The invocation count of a recording stub. -/
def invocationCount {σ : Type} (w : σ × List Call) : Nat := w.2.length

/-! ## The facade (`controller.go`) -/

/-- The first part of `CreateVolume`, up to the call of the stub: the request
literal and the two conditional assignments to `req.CapacityRange` and
`req.VolumeCapabilities`. -/
def CreateVolume.req (version : Option Version) (name : String)
    (requiredBytes limitBytes : Nat) (fsType : String) (mountFlags : Slice String)
    (params : Option StringMap) : CreateVolumeRequest :=
  let req : CreateVolumeRequest :=
    { Name := name, Version := version, Parameters := params,
      CapacityRange := none, VolumeCapabilities := none }
  let req : CreateVolumeRequest :=
    if requiredBytes > 0 ∨ limitBytes > 0 then
      { req with
        CapacityRange := some { LimitBytes := limitBytes, RequiredBytes := requiredBytes } }
    else req
  let req : CreateVolumeRequest :=
    if fsType ≠ "" ∨ len mountFlags > 0 then
      let cap : VolumeCapability_MountVolume := { FsType := "", MountFlags := none }
      let cap : VolumeCapability_MountVolume := { cap with FsType := fsType }
      let cap : VolumeCapability_MountVolume :=
        if len mountFlags > 0 then { cap with MountFlags := mountFlags } else cap
      { req with
        VolumeCapabilities := some [some { Value := some (.Mount (some cap)) }] }
    else req
  req

/-- `CreateVolume` issues a CreateVolume request to a CSI controller. The
last statement selects the field `VolumeInfo` through the pointer given by
`res.GetResult()`, which panics when that pointer is nil. -/
def CreateVolume {σ : Type} (ctx : Context) (c : ControllerClient σ)
    (version : Option Version) (name : String) (requiredBytes limitBytes : Nat)
    (fsType : String) (mountFlags : Slice String) (params : Option StringMap)
    (callOpts : List CallOption) (s : σ) :
    Outcome (Option VolumeInfo × Option Error) × σ :=
  let req := CreateVolume.req version name requiredBytes limitBytes fsType mountFlags params
  match c.CreateVolume ctx req callOpts s with
  | ((res, err), s1) =>
    match err with
    | some e => (.returned (none, some e), s1)
    | none =>
      match GetResult res with
      | none => (.panicked, s1)
      | some result => (.returned (result.VolumeInfo, none), s1)

/-- `DeleteVolume` issues a DeleteVolume request to a CSI controller. -/
def DeleteVolume {σ : Type} (ctx : Context) (c : ControllerClient σ)
    (version : Option Version) (volumeID : Option VolumeID)
    (volumeMetadata : Option VolumeMetadata) (callOpts : List CallOption) (s : σ) :
    Option Error × σ :=
  let req : DeleteVolumeRequest :=
    { Version := version, VolumeId := volumeID, VolumeMetadata := volumeMetadata }
  match c.DeleteVolume ctx req callOpts s with
  | ((_, err), s1) =>
    match err with
    | some e => (some e, s1)
    | none => (none, s1)

/-- `ControllerPublishVolume` issues a ControllerPublishVolume request to a
CSI controller. As in `CreateVolume`, the field `PublishVolumeInfo` is
selected through the pointer given by `res.GetResult()`. -/
def ControllerPublishVolume {σ : Type} (ctx : Context) (c : ControllerClient σ)
    (version : Option Version) (volumeID : Option VolumeID)
    (volumeMetadata : Option VolumeMetadata) (nodeID : Option NodeID) (readonly : Bool)
    (callOpts : List CallOption) (s : σ) :
    Outcome (Option PublishVolumeInfo × Option Error) × σ :=
  if volumeID = none then (.returned (none, some ErrVolumeIDRequired), s)
  else
    let req : ControllerPublishVolumeRequest :=
      { Version := version, VolumeId := volumeID, VolumeMetadata := volumeMetadata,
        NodeId := nodeID, Readonly := readonly }
    match c.ControllerPublishVolume ctx req callOpts s with
    | ((res, err), s1) =>
      match err with
      | some e => (.returned (none, some e), s1)
      | none =>
        match GetResult res with
        | none => (.panicked, s1)
        | some result => (.returned (result.PublishVolumeInfo, none), s1)

/-- `ControllerUnpublishVolume` issues a ControllerUnpublishVolume request to
a CSI controller. -/
def ControllerUnpublishVolume {σ : Type} (ctx : Context) (c : ControllerClient σ)
    (version : Option Version) (volumeID : Option VolumeID)
    (volumeMetadata : Option VolumeMetadata) (nodeID : Option NodeID)
    (callOpts : List CallOption) (s : σ) : Option Error × σ :=
  if volumeID = none then (some ErrVolumeIDRequired, s)
  else
    let req : ControllerUnpublishVolumeRequest :=
      { Version := version, VolumeId := volumeID, VolumeMetadata := volumeMetadata,
        NodeId := nodeID }
    match c.ControllerUnpublishVolume ctx req callOpts s with
    | ((_, err), s1) =>
      match err with
      | some e => (some e, s1)
      | none => (none, s1)

/-- `ValidateVolumeCapabilities` issues a ValidateVolumeCapabilities request
to a CSI controller. It returns the pointer given by `res.GetResult()` as it
is and selects no field through it. -/
def ValidateVolumeCapabilities {σ : Type} (ctx : Context) (c : ControllerClient σ)
    (version : Option Version) (volumeInfo : Option VolumeInfo)
    (volumeCapabilities : Slice (Option VolumeCapability))
    (callOpts : List CallOption) (s : σ) :
    (Option ValidateVolumeCapabilitiesResponse_Result × Option Error) × σ :=
  if volumeInfo = none then ((none, some ErrVolumeInfoRequired), s)
  else if volumeCapabilities = none then ((none, some ErrVolumeCapabilityRequired), s)
  else
    let req : ValidateVolumeCapabilitiesRequest :=
      { Version := version, VolumeInfo := volumeInfo,
        VolumeCapabilities := volumeCapabilities }
    match c.ValidateVolumeCapabilities ctx req callOpts s with
    | ((res, err), s1) =>
      match err with
      | some e => ((none, some e), s1)
      | none => ((GetResult res, none), s1)

/-- The `for x, e := range entries` loop of `ListVolumes`, from index `x` on
over the entries still to visit: `volumes[x]` is assigned the volume info of
`e`, and a nil one ends the loop at once (`none`); after the last entry the
filled `volumes` is the result. -/
def ListVolumes.loop :
    List (Option ListVolumesResponse_Result_Entry) → Nat → List (Option VolumeInfo) →
      Option (List (Option VolumeInfo))
  | [], _, volumes => some volumes
  | e :: rest, x, volumes =>
    let volumes := volumes.set x (GetVolumeInfo e)
    if volumes.getD x none = none then none
    else ListVolumes.loop rest (x + 1) volumes

/-- `ListVolumes` issues a ListVolumes request to a CSI controller. The
fields `NextToken` and `Entries` are selected through the pointer given by
`res.GetResult()`, which panics when that pointer is nil. -/
def ListVolumes {σ : Type} (ctx : Context) (c : ControllerClient σ)
    (version : Option Version) (maxEntries : Nat) (startingToken : String)
    (callOpts : List CallOption) (s : σ) :
    Outcome (Slice (Option VolumeInfo) × String × Option Error) × σ :=
  let req : ListVolumesRequest :=
    { MaxEntries := maxEntries, StartingToken := startingToken, Version := version }
  match c.ListVolumes ctx req callOpts s with
  | ((res, err), s1) =>
    match err with
    | some e => (.returned (none, "", some e), s1)
    | none =>
      match GetResult res with
      | none => (.panicked, s1)
      | some result =>
        let nextToken := result.NextToken
        let entries := result.Entries
        if len result.Entries = 0 then (.returned (none, nextToken, none), s1)
        else
          let volumes : List (Option VolumeInfo) := List.replicate (len entries) none
          match ListVolumes.loop entries.toList 0 volumes with
          | none => (.returned (none, "", some ErrNilVolumeInfo), s1)
          | some volumes => (.returned (some volumes, nextToken, none), s1)

/-- `GetCapacity` issues a GetCapacity request to a CSI controller. The field
`TotalCapacity` is selected through the pointer given by `res.GetResult()`. -/
def GetCapacity {σ : Type} (ctx : Context) (c : ControllerClient σ)
    (version : Option Version) (callOpts : List CallOption) (s : σ) :
    Outcome (Nat × Option Error) × σ :=
  let req : GetCapacityRequest := { Version := version }
  match c.GetCapacity ctx req callOpts s with
  | ((res, err), s1) =>
    match err with
    | some e => (.returned (0, some e), s1)
    | none =>
      match GetResult res with
      | none => (.panicked, s1)
      | some result => (.returned (result.TotalCapacity, none), s1)

/-- `ControllerGetCapabilities` issues a ControllerGetCapabilities request to
a CSI controller. The field `Capabilities` is selected through the pointer
given by `res.GetResult()`. -/
def ControllerGetCapabilities {σ : Type} (ctx : Context) (c : ControllerClient σ)
    (version : Option Version) (callOpts : List CallOption) (s : σ) :
    Outcome (Slice (Option ControllerServiceCapability) × Option Error) × σ :=
  let req : ControllerGetCapabilitiesRequest := { Version := version }
  match c.ControllerGetCapabilities ctx req callOpts s with
  | ((res, err), s1) =>
    match err with
    | some e => (.returned (none, some e), s1)
    | none =>
      match GetResult res with
      | none => (.panicked, s1)
      | some result => (.returned (result.Capabilities, none), s1)

/-! ## Stubs and values used as concrete inputs -/

/-- The reply of a stub that always answers `(res, err)` and counts its
invocations in its state. -/
def answer {ρ : Type} (res : Option ρ) (err : Option Error) (n : Nat) : Reply Nat ρ :=
  ((res, err), n + 1)

/-- A stub all of whose methods succeed with a response that has no nested
result. -/
def noResultStub : ControllerClient Nat where
  CreateVolume _ _ _ := answer (some { Result := none }) none
  DeleteVolume _ _ _ := answer (some { Result := none }) none
  ControllerPublishVolume _ _ _ := answer (some { Result := none }) none
  ControllerUnpublishVolume _ _ _ := answer (some { Result := none }) none
  ValidateVolumeCapabilities _ _ _ := answer (some { Result := none }) none
  ListVolumes _ _ _ := answer (some { Result := none }) none
  GetCapacity _ _ _ := answer (some { Result := none }) none
  ControllerGetCapabilities _ _ _ := answer (some { Result := none }) none

/-- A stub all of whose methods fail with the error `e` (and, as a Go stub
may, still hand back a response). -/
def failingStub (e : Error) : ControllerClient Nat where
  CreateVolume _ _ _ := answer (some { Result := some { VolumeInfo := none } }) (some e)
  DeleteVolume _ _ _ := answer none (some e)
  ControllerPublishVolume _ _ _ := answer none (some e)
  ControllerUnpublishVolume _ _ _ := answer none (some e)
  ValidateVolumeCapabilities _ _ _ := answer none (some e)
  ListVolumes _ _ _ :=
    answer (some { Result := some { Entries := some [none], NextToken := "t" } }) (some e)
  GetCapacity _ _ _ := answer (some { Result := some { TotalCapacity := 7 } }) (some e)
  ControllerGetCapabilities _ _ _ := answer none (some e)

/-- A volume info used in the concrete inputs. -/
def vol (n : Nat) : VolumeInfo := { CapacityBytes := n, Id := none, Metadata := none }

/-- A list result of three entries whose second entry is a nil pointer. -/
def holedResult : ListVolumesResponse_Result :=
  { Entries := some [some { VolumeInfo := some (vol 1) }, none,
      some { VolumeInfo := some (vol 3) }],
    NextToken := "next" }

/-- A list result of two entries, both with a volume info. -/
def fullResult : ListVolumesResponse_Result :=
  { Entries := some [some { VolumeInfo := some (vol 1) }, some { VolumeInfo := some (vol 2) }],
    NextToken := "next" }

/-- A list result with a non-nil, empty entry list. -/
def emptyResult : ListVolumesResponse_Result :=
  { Entries := some [], NextToken := "next" }

/-- A stub whose `ListVolumes` succeeds with the given result, and whose
`GetCapacity` and `ControllerGetCapabilities` succeed with fixed results. -/
def listingStub (result : ListVolumesResponse_Result) : ControllerClient Nat where
  CreateVolume _ _ _ := answer (some { Result := some { VolumeInfo := some (vol 1) } }) none
  DeleteVolume _ _ _ := answer (some { Result := some { } }) none
  ControllerPublishVolume _ _ _ := answer none none
  ControllerUnpublishVolume _ _ _ := answer none none
  ValidateVolumeCapabilities _ _ _ := answer none none
  ListVolumes _ _ _ := answer (some { Result := some result }) none
  GetCapacity _ _ _ := answer (some { Result := some { TotalCapacity := 4096 } }) none
  ControllerGetCapabilities _ _ _ :=
    answer (some { Result := some { Capabilities := some [some ⟨2⟩, none, some ⟨1⟩] } }) none

/-- A stub whose `ValidateVolumeCapabilities` succeeds with a result that
confirms the capabilities; its other methods are those of `listingStub`. -/
def supportedStub : ControllerClient Nat :=
  { listingStub emptyResult with
    ValidateVolumeCapabilities := fun _ _ _ =>
      answer (some { Result := some { Supported := true, Message := "ok" } }) none }

/-! ## Decoding a CreateVolume request -/

/-- The semantic fields of a CreateVolume request. The mount flags are kept as
the list of their elements, so that a nil and an empty flag list are the same
value. -/
structure CreateVolumeFields where
  name : String
  version : Option Version
  params : Option StringMap
  requiredBytes : Nat
  limitBytes : Nat
  fsType : String
  mountFlags : List String
  deriving DecidableEq, Repr

/-- The decoding of the round-trip property of the spec, written from its
words and not from the code: the name, version and parameters are read off the
request, an absent capacity range is read as required 0 and limit 0, and an
absent capability is read as an empty fsType and no mount flags; a capability
that is present is read from the mount capability of the first entry. -/
def CreateVolume.decode (req : CreateVolumeRequest) : CreateVolumeFields :=
  { name := req.Name
    version := req.Version
    params := req.Parameters
    requiredBytes :=
      match req.CapacityRange with
      | none => 0
      | some range => range.RequiredBytes
    limitBytes :=
      match req.CapacityRange with
      | none => 0
      | some range => range.LimitBytes
    fsType :=
      match req.VolumeCapabilities.toList with
      | some { Value := some (.Mount (some mount)) } :: _ => mount.FsType
      | _ => ""
    mountFlags :=
      match req.VolumeCapabilities.toList with
      | some { Value := some (.Mount (some mount)) } :: _ => mount.MountFlags.toList
      | _ => [] }

end Gocsi

namespace Gocsi

/-! ## Request construction -/

/-- The record of a recording stub after `CreateVolume`: one more invocation,
of the stub method `CreateVolume`, with the request built from the arguments
and the call options of the caller. -/
theorem CreateVolume_record {σ : Type} (ctx : Context) (c : ControllerClient σ)
    (version : Option Version) (name : String) (requiredBytes limitBytes : Nat)
    (fsType : String) (mountFlags : Slice String) (params : Option StringMap)
    (callOpts : List CallOption) (s : σ) (log : List Call) :
    (CreateVolume ctx (recording c) version name requiredBytes limitBytes fsType
        mountFlags params callOpts (s, log)).2.2 =
      log ++ [Call.CreateVolume ctx
        (CreateVolume.req version name requiredBytes limitBytes fsType mountFlags params)
        callOpts] := by
  simp only [CreateVolume, recording, record]
  split <;> (try split) <;> simp_all

/-- The capacity range of the request built by `CreateVolume`. -/
theorem CreateVolume_req_capacityRange (version : Option Version) (name : String)
    (requiredBytes limitBytes : Nat) (fsType : String) (mountFlags : Slice String)
    (params : Option StringMap) :
    (CreateVolume.req version name requiredBytes limitBytes fsType mountFlags
        params).CapacityRange =
      if requiredBytes > 0 ∨ limitBytes > 0 then
        some { LimitBytes := limitBytes, RequiredBytes := requiredBytes }
      else none := by
  simp only [CreateVolume.req]
  split_ifs <;> simp_all

/-- The volume capabilities of the request built by `CreateVolume`. -/
theorem CreateVolume_req_volumeCapabilities (version : Option Version) (name : String)
    (requiredBytes limitBytes : Nat) (fsType : String) (mountFlags : Slice String)
    (params : Option StringMap) :
    (CreateVolume.req version name requiredBytes limitBytes fsType mountFlags
        params).VolumeCapabilities =
      if fsType ≠ "" ∨ len mountFlags > 0 then
        some [some { Value := some (.Mount (some
          { FsType := fsType,
            MountFlags := if len mountFlags > 0 then mountFlags else none })) }]
      else none := by
  simp only [CreateVolume.req]
  split_ifs <;> simp_all

/-- C1: for every requiredBytes and limitBytes, `CreateVolume` calls the
recording stub with one request, which has no capacity range when both bounds
are 0 and otherwise a capacity range holding exactly the two bounds. -/
theorem CreateVolume_capacityRange {σ : Type} (ctx : Context) (c : ControllerClient σ)
    (version : Option Version) (name : String) (requiredBytes limitBytes : Nat)
    (fsType : String) (mountFlags : Slice String) (params : Option StringMap)
    (callOpts : List CallOption) (s : σ) :
    ∃ req : CreateVolumeRequest,
      (CreateVolume ctx (recording c) version name requiredBytes limitBytes fsType
          mountFlags params callOpts (s, [])).2.2 = [Call.CreateVolume ctx req callOpts] ∧
      req.CapacityRange =
        if requiredBytes = 0 ∧ limitBytes = 0 then none
        else some { RequiredBytes := requiredBytes, LimitBytes := limitBytes } := by
  refine ⟨_, CreateVolume_record ctx c version name requiredBytes limitBytes fsType
    mountFlags params callOpts s [], ?_⟩
  rw [CreateVolume_req_capacityRange]
  by_cases h : requiredBytes = 0 ∧ limitBytes = 0
  · simp [h]
  · have h2 : requiredBytes > 0 ∨ limitBytes > 0 := by omega
    simp [h, h2]

/-- C2: for every fsType and mountFlags, the request `CreateVolume` hands to the
recording stub has no volume capability entry when fsType is empty and
mountFlags has no elements; otherwise it has exactly one entry, of mount type,
whose FsType is fsType and whose MountFlags are mountFlags when that is
non-empty and unset when it is empty. -/
theorem CreateVolume_volumeCapabilities {σ : Type} (ctx : Context) (c : ControllerClient σ)
    (version : Option Version) (name : String) (requiredBytes limitBytes : Nat)
    (fsType : String) (mountFlags : Slice String) (params : Option StringMap)
    (callOpts : List CallOption) (s : σ) :
    ∃ req : CreateVolumeRequest,
      (CreateVolume ctx (recording c) version name requiredBytes limitBytes fsType
          mountFlags params callOpts (s, [])).2.2 = [Call.CreateVolume ctx req callOpts] ∧
      req.VolumeCapabilities =
        if fsType = "" ∧ len mountFlags = 0 then none
        else some [some { Value := some (.Mount (some
          { FsType := fsType,
            MountFlags := if len mountFlags = 0 then none else mountFlags })) }] := by
  refine ⟨_, CreateVolume_record ctx c version name requiredBytes limitBytes fsType
    mountFlags params callOpts s [], ?_⟩
  rw [CreateVolume_req_volumeCapabilities]
  by_cases h1 : fsType = "" <;> by_cases h2 : len mountFlags = 0 <;> simp [h1, h2]
  all_goals omega

/-! ## Local validation -/

/-- C3: with a nil volume ID, `ControllerPublishVolume` returns a nil
PublishVolumeInfo and `ErrVolumeIDRequired`, `ControllerUnpublishVolume`
returns `ErrVolumeIDRequired`, and in both the recording stub is left as it
was, with invocation count 0. -/
theorem publish_unpublish_nil_volumeID {σ : Type} (ctx : Context) (c : ControllerClient σ)
    (version : Option Version) (volumeMetadata : Option VolumeMetadata)
    (nodeID : Option NodeID) (readonly : Bool) (callOpts : List CallOption) (s : σ) :
    ControllerPublishVolume ctx (recording c) version none volumeMetadata nodeID readonly
        callOpts (s, []) = (.returned (none, some ErrVolumeIDRequired), (s, [])) ∧
    invocationCount (ControllerPublishVolume ctx (recording c) version none volumeMetadata
        nodeID readonly callOpts (s, [])).2 = 0 ∧
    ControllerUnpublishVolume ctx (recording c) version none volumeMetadata nodeID
        callOpts (s, []) = (some ErrVolumeIDRequired, (s, [])) ∧
    invocationCount (ControllerUnpublishVolume ctx (recording c) version none volumeMetadata
        nodeID callOpts (s, [])).2 = 0 := by
  simp [ControllerPublishVolume, ControllerUnpublishVolume, invocationCount]

/-- C4: `ValidateVolumeCapabilities` returns `ErrVolumeInfoRequired` without
calling the stub when volumeInfo is nil, returns `ErrVolumeCapabilityRequired`
without calling the stub when volumeInfo is non-nil and the capability list is
nil, and for a non-nil volumeInfo with a non-nil capability list, the empty
one included, calls the stub once with a request carrying that volumeInfo and
that list. -/
theorem ValidateVolumeCapabilities_validation {σ : Type} (ctx : Context)
    (c : ControllerClient σ) (version : Option Version) (info : VolumeInfo)
    (volumeCapabilities : Slice (Option VolumeCapability))
    (caps : List (Option VolumeCapability)) (callOpts : List CallOption) (s : σ) :
    ValidateVolumeCapabilities ctx (recording c) version none volumeCapabilities callOpts
        (s, []) = ((none, some ErrVolumeInfoRequired), (s, [])) ∧
    ValidateVolumeCapabilities ctx (recording c) version (some info) none callOpts
        (s, []) = ((none, some ErrVolumeCapabilityRequired), (s, [])) ∧
    (ValidateVolumeCapabilities ctx (recording c) version (some info) (some caps) callOpts
        (s, [])).2.2 =
      [Call.ValidateVolumeCapabilities ctx
        { Version := version, VolumeInfo := some info, VolumeCapabilities := some caps }
        callOpts] ∧
    (ValidateVolumeCapabilities ctx (recording c) version (some info) (some []) callOpts
        (s, [])).2.2 =
      [Call.ValidateVolumeCapabilities ctx
        { Version := version, VolumeInfo := some info, VolumeCapabilities := some [] }
        callOpts] := by
  have called : ∀ l : List (Option VolumeCapability),
      (ValidateVolumeCapabilities ctx (recording c) version (some info) (some l) callOpts
        (s, [])).2.2 =
      [Call.ValidateVolumeCapabilities ctx
        { Version := version, VolumeInfo := some info, VolumeCapabilities := some l }
        callOpts] := by
    intro l
    simp only [ValidateVolumeCapabilities, recording, record]
    split <;> (try split) <;> (try split) <;> simp_all
  exact ⟨by simp [ValidateVolumeCapabilities], by simp [ValidateVolumeCapabilities],
    called caps, called []⟩

/-! ## Unwrapping the response -/

/-- C5 (the code at an absent result): on a successful response without
nested result both `CreateVolume` and `ControllerPublishVolume` panic after
the stub call, instead of returning a nil payload and no error. -/
theorem absent_result_panics :
    CreateVolume ⟨0⟩ noResultStub none "vol" 0 0 "" none none [] 0
      = (Outcome.panicked, 1) ∧
    ControllerPublishVolume ⟨0⟩ noResultStub none (some ⟨none⟩) none none false [] 0
      = (Outcome.panicked, 1) := by
  constructor <;> rfl

/-- The loop of `ListVolumes` over the entries `es`, started at the index
where the part `mid` of the slice begins: it fails when some entry has no
volume info, and otherwise overwrites `mid` with the volume infos of the
entries, in order. -/
theorem ListVolumes.loop_append (es : List (Option ListVolumesResponse_Result_Entry)) :
    ∀ (pre mid post : List (Option VolumeInfo)), mid.length = es.length →
      ListVolumes.loop es pre.length (pre ++ mid ++ post) =
        if ∀ e ∈ es, GetVolumeInfo e ≠ none then
          some (pre ++ es.map GetVolumeInfo ++ post)
        else none := by
  induction es with
  | nil =>
    intro pre mid post h
    have hmid : mid = [] := List.length_eq_zero.mp h
    simp [ListVolumes.loop, hmid]
  | cons e rest ih =>
    intro pre mid post h
    cases mid with
    | nil => simp at h
    | cons m mid1 =>
      have hlen : mid1.length = rest.length := by simpa using h
      have hset : (pre ++ m :: mid1 ++ post).set pre.length (GetVolumeInfo e) =
          (pre ++ [GetVolumeInfo e]) ++ mid1 ++ post := by
        simp [List.set_append]
      have hget : ((pre ++ [GetVolumeInfo e]) ++ mid1 ++ post).getD pre.length none =
          GetVolumeInfo e := by
        have hlt : pre.length < ((pre ++ [GetVolumeInfo e]) ++ mid1 ++ post).length := by
          simp
        rw [List.getD_eq_getElem _ _ hlt]
        simp [List.getElem_append_right]
      simp only [ListVolumes.loop, hset, hget]
      by_cases hv : GetVolumeInfo e = none
      · simp [hv]
      · have hih := ih (pre ++ [GetVolumeInfo e]) mid1 post hlen
        simp only [List.length_append, List.length_singleton] at hih
        simpa [hv] using hih

/-- The length of a slice is the length of its list of elements. -/
theorem length_toList {α : Type} (xs : Slice α) : xs.toList.length = len xs := by
  cases xs <;> rfl

/-- What `ListVolumes` returns when the stub succeeds with a response whose
nested result is present: the three cases of the code after the stub call. -/
theorem ListVolumes_of_result {σ : Type} (ctx : Context) (c : ControllerClient σ)
    (version : Option Version) (maxEntries : Nat) (startingToken : String)
    (callOpts : List CallOption) (s : σ) (res : Option ListVolumesResponse)
    (result : ListVolumesResponse_Result)
    (hcall : (c.ListVolumes ctx
      { MaxEntries := maxEntries, StartingToken := startingToken, Version := version }
      callOpts s).1 = (res, none))
    (hres : GetResult res = some result) :
    (ListVolumes ctx c version maxEntries startingToken callOpts s).1 =
      if len result.Entries = 0 then .returned (none, result.NextToken, none)
      else if ∀ e ∈ result.Entries.toList, GetVolumeInfo e ≠ none then
        .returned (some (result.Entries.toList.map GetVolumeInfo), result.NextToken, none)
      else .returned (none, "", some ErrNilVolumeInfo) := by
  rcases hc : c.ListVolumes ctx
      { MaxEntries := maxEntries, StartingToken := startingToken, Version := version }
      callOpts s with ⟨⟨res1, err⟩, s1⟩
  rw [hc] at hcall
  simp only [Prod.mk.injEq] at hcall
  obtain ⟨h1, h2⟩ := hcall
  subst h1 h2
  simp only [ListVolumes, hc, hres]
  by_cases h0 : len result.Entries = 0
  · simp [h0]
  · have hloop := ListVolumes.loop_append result.Entries.toList []
      (List.replicate (len result.Entries) none) []
      (by simp [length_toList])
    simp only [List.length_nil, List.nil_append, List.append_nil] at hloop
    simp only [h0, if_false, hloop]
    by_cases hall : ∀ e ∈ result.Entries.toList, GetVolumeInfo e ≠ none
    · rw [if_pos hall, if_pos hall]
    · rw [if_neg hall, if_neg hall]

/-- C6: when the stub succeeds with a response whose entry list has, at any
position, an entry without volume info (a nil entry or an entry whose volume
info is nil), `ListVolumes` returns a nil volume list, the empty token and
`ErrNilVolumeInfo`. -/
theorem ListVolumes_nil_volume_info {σ : Type} (ctx : Context) (c : ControllerClient σ)
    (version : Option Version) (maxEntries : Nat) (startingToken : String)
    (callOpts : List CallOption) (s : σ) (res : Option ListVolumesResponse)
    (result : ListVolumesResponse_Result)
    (hcall : (c.ListVolumes ctx
      { MaxEntries := maxEntries, StartingToken := startingToken, Version := version }
      callOpts s).1 = (res, none))
    (hres : GetResult res = some result)
    (hbad : ∃ e ∈ result.Entries.toList, GetVolumeInfo e = none) :
    (ListVolumes ctx c version maxEntries startingToken callOpts s).1 =
      .returned (none, "", some ErrNilVolumeInfo) := by
  rw [ListVolumes_of_result ctx c version maxEntries startingToken callOpts s res result
    hcall hres]
  obtain ⟨e, he, hnil⟩ := hbad
  have h0 : len result.Entries ≠ 0 := by
    rw [← length_toList]
    exact Nat.pos_iff_ne_zero.mp (List.length_pos_of_mem he)
  have hall : ¬ ∀ e ∈ result.Entries.toList, GetVolumeInfo e ≠ none :=
    fun h => h e he hnil
  simp only [h0, hall, if_false]

/-- Witness: a successful response of three entries whose second entry is
nil makes `ListVolumes` return the nil list, the empty token and
`ErrNilVolumeInfo`, the volume infos before and after it notwithstanding. -/
theorem ListVolumes_nil_volume_info_witness :
    (∃ e ∈ holedResult.Entries.toList, GetVolumeInfo e = none) ∧
    (ListVolumes ⟨0⟩ (listingStub holedResult) none 10 "" [] 0).1 =
      .returned (none, "", some ErrNilVolumeInfo) :=
  ⟨⟨none, by simp [holedResult, Slice.toList], rfl⟩,
    ListVolumes_nil_volume_info ⟨0⟩ (listingStub holedResult) none 10 "" [] 0
      (some { Result := some holedResult }) holedResult rfl rfl
      ⟨none, by simp [holedResult, Slice.toList], rfl⟩⟩

/-- C7: when the stub succeeds with a response whose result is present and
whose entries all carry a volume info, `ListVolumes` returns no error, the
next token of the result, and a volume list as long as the entry list whose
i-th element is the volume info of the i-th entry. -/
theorem ListVolumes_order {σ : Type} (ctx : Context) (c : ControllerClient σ)
    (version : Option Version) (maxEntries : Nat) (startingToken : String)
    (callOpts : List CallOption) (s : σ) (res : Option ListVolumesResponse)
    (result : ListVolumesResponse_Result)
    (hcall : (c.ListVolumes ctx
      { MaxEntries := maxEntries, StartingToken := startingToken, Version := version }
      callOpts s).1 = (res, none))
    (hres : GetResult res = some result)
    (hall : ∀ e ∈ result.Entries.toList, GetVolumeInfo e ≠ none) :
    ∃ volumes : Slice (Option VolumeInfo),
      (ListVolumes ctx c version maxEntries startingToken callOpts s).1 =
        .returned (volumes, result.NextToken, none) ∧
      len volumes = len result.Entries ∧
      ∀ i : Nat, i < len result.Entries →
        volumes.toList[i]? = (result.Entries.toList[i]?).map GetVolumeInfo := by
  rw [ListVolumes_of_result ctx c version maxEntries startingToken callOpts s res result
    hcall hres]
  by_cases h0 : len result.Entries = 0
  · refine ⟨none, by simp [h0], by rw [h0]; rfl, ?_⟩
    intro i hi
    omega
  · refine ⟨some (result.Entries.toList.map GetVolumeInfo), ?_, ?_, ?_⟩
    · rw [if_neg h0, if_pos hall]
    · simp [len, length_toList]
    · intro i _
      simp [Slice.toList]

/-- Witness: on a successful response of two entries with volume infos
`ListVolumes` returns a list of two volume infos, in the order of the
entries. -/
theorem ListVolumes_order_witness :
    ∃ volumes : Slice (Option VolumeInfo),
      (ListVolumes ⟨0⟩ (listingStub fullResult) none 10 "" [] 0).1 =
        .returned (volumes, fullResult.NextToken, none) ∧
      len volumes = len fullResult.Entries ∧
      ∀ i : Nat, i < len fullResult.Entries →
        volumes.toList[i]? = (fullResult.Entries.toList[i]?).map GetVolumeInfo :=
  ListVolumes_order ⟨0⟩ (listingStub fullResult) none 10 "" [] 0
    (some { Result := some fullResult }) fullResult rfl rfl
    (by simp [fullResult, Slice.toList, GetVolumeInfo])

/-- C8: when the stub succeeds with a response whose result is present and
has zero entries, `ListVolumes` returns an empty volume list (the nil slice),
no error, and the next token of the response. -/
theorem ListVolumes_zero_entries {σ : Type} (ctx : Context) (c : ControllerClient σ)
    (version : Option Version) (maxEntries : Nat) (startingToken : String)
    (callOpts : List CallOption) (s : σ) (res : Option ListVolumesResponse)
    (result : ListVolumesResponse_Result)
    (hcall : (c.ListVolumes ctx
      { MaxEntries := maxEntries, StartingToken := startingToken, Version := version }
      callOpts s).1 = (res, none))
    (hres : GetResult res = some result)
    (hzero : len result.Entries = 0) :
    ∃ volumes : Slice (Option VolumeInfo),
      (ListVolumes ctx c version maxEntries startingToken callOpts s).1 =
        .returned (volumes, result.NextToken, none) ∧
      len volumes = 0 := by
  rw [ListVolumes_of_result ctx c version maxEntries startingToken callOpts s res result
    hcall hres]
  exact ⟨none, by simp [hzero], rfl⟩

/-- Witness: on a successful response with a non-nil empty entry list
`ListVolumes` returns an empty list, no error and the token of the response. -/
theorem ListVolumes_zero_entries_witness :
    len emptyResult.Entries = 0 ∧
    ∃ volumes : Slice (Option VolumeInfo),
      (ListVolumes ⟨0⟩ (listingStub emptyResult) none 10 "" [] 0).1 =
        .returned (volumes, emptyResult.NextToken, none) ∧
      len volumes = 0 :=
  ⟨rfl, ListVolumes_zero_entries ⟨0⟩ (listingStub emptyResult) none 10 "" [] 0
    (some { Result := some emptyResult }) emptyResult rfl rfl rfl⟩

/-! ## Transport errors -/

/-- C9: for each of the eight operations, on arguments that pass the local
validation, when the stub returns the error `e` the operation returns exactly
`e` together with the zero payload: a nil VolumeInfo, a nil
PublishVolumeInfo, a nil result, a nil list and the empty token, capacity 0,
a nil capability list. -/
theorem transport_error_unchanged {σ : Type} (ctx : Context) (c : ControllerClient σ)
    (version : Option Version) (callOpts : List CallOption) (s : σ) (e : Error)
    (name : String) (requiredBytes limitBytes : Nat) (fsType : String)
    (mountFlags : Slice String) (params : Option StringMap)
    (anyVolumeID : Option VolumeID) (volumeID : VolumeID)
    (volumeMetadata : Option VolumeMetadata) (nodeID : Option NodeID) (readonly : Bool)
    (info : VolumeInfo) (caps : List (Option VolumeCapability))
    (maxEntries : Nat) (startingToken : String) :
    ((c.CreateVolume ctx
        (CreateVolume.req version name requiredBytes limitBytes fsType mountFlags params)
        callOpts s).1.2 = some e →
      (CreateVolume ctx c version name requiredBytes limitBytes fsType mountFlags params
        callOpts s).1 = .returned (none, some e)) ∧
    ((c.DeleteVolume ctx
        { Version := version, VolumeId := anyVolumeID, VolumeMetadata := volumeMetadata }
        callOpts s).1.2 = some e →
      (DeleteVolume ctx c version anyVolumeID volumeMetadata callOpts s).1 = some e) ∧
    ((c.ControllerPublishVolume ctx
        { Version := version, VolumeId := some volumeID, VolumeMetadata := volumeMetadata,
          NodeId := nodeID, Readonly := readonly } callOpts s).1.2 = some e →
      (ControllerPublishVolume ctx c version (some volumeID) volumeMetadata nodeID readonly
        callOpts s).1 = .returned (none, some e)) ∧
    ((c.ControllerUnpublishVolume ctx
        { Version := version, VolumeId := some volumeID, VolumeMetadata := volumeMetadata,
          NodeId := nodeID } callOpts s).1.2 = some e →
      (ControllerUnpublishVolume ctx c version (some volumeID) volumeMetadata nodeID
        callOpts s).1 = some e) ∧
    ((c.ValidateVolumeCapabilities ctx
        { Version := version, VolumeInfo := some info, VolumeCapabilities := some caps }
        callOpts s).1.2 = some e →
      (ValidateVolumeCapabilities ctx c version (some info) (some caps) callOpts s).1 =
        (none, some e)) ∧
    ((c.ListVolumes ctx
        { MaxEntries := maxEntries, StartingToken := startingToken, Version := version }
        callOpts s).1.2 = some e →
      (ListVolumes ctx c version maxEntries startingToken callOpts s).1 =
        .returned (none, "", some e)) ∧
    ((c.GetCapacity ctx { Version := version } callOpts s).1.2 = some e →
      (GetCapacity ctx c version callOpts s).1 = .returned (0, some e)) ∧
    ((c.ControllerGetCapabilities ctx { Version := version } callOpts s).1.2 = some e →
      (ControllerGetCapabilities ctx c version callOpts s).1 = .returned (none, some e)) := by
  refine ⟨?_, ?_, ?_, ?_, ?_, ?_, ?_, ?_⟩
  · intro h
    rcases hc : c.CreateVolume ctx
      (CreateVolume.req version name requiredBytes limitBytes fsType mountFlags params)
      callOpts s with ⟨⟨res, err⟩, s1⟩
    rw [hc] at h
    simp only at h
    subst h
    simp only [CreateVolume, hc]
  · intro h
    rcases hc : c.DeleteVolume ctx
      { Version := version, VolumeId := anyVolumeID, VolumeMetadata := volumeMetadata }
      callOpts s with ⟨⟨res, err⟩, s1⟩
    rw [hc] at h
    simp only at h
    subst h
    simp only [DeleteVolume, hc]
  · intro h
    rcases hc : c.ControllerPublishVolume ctx
      { Version := version, VolumeId := some volumeID, VolumeMetadata := volumeMetadata,
        NodeId := nodeID, Readonly := readonly } callOpts s with ⟨⟨res, err⟩, s1⟩
    rw [hc] at h
    simp only at h
    subst h
    simp [ControllerPublishVolume, hc]
  · intro h
    rcases hc : c.ControllerUnpublishVolume ctx
      { Version := version, VolumeId := some volumeID, VolumeMetadata := volumeMetadata,
        NodeId := nodeID } callOpts s with ⟨⟨res, err⟩, s1⟩
    rw [hc] at h
    simp only at h
    subst h
    simp [ControllerUnpublishVolume, hc]
  · intro h
    rcases hc : c.ValidateVolumeCapabilities ctx
      { Version := version, VolumeInfo := some info, VolumeCapabilities := some caps }
      callOpts s with ⟨⟨res, err⟩, s1⟩
    rw [hc] at h
    simp only at h
    subst h
    simp [ValidateVolumeCapabilities, hc]
  · intro h
    rcases hc : c.ListVolumes ctx
      { MaxEntries := maxEntries, StartingToken := startingToken, Version := version }
      callOpts s with ⟨⟨res, err⟩, s1⟩
    rw [hc] at h
    simp only at h
    subst h
    simp only [ListVolumes, hc]
  · intro h
    rcases hc : c.GetCapacity ctx { Version := version } callOpts s with ⟨⟨res, err⟩, s1⟩
    rw [hc] at h
    simp only at h
    subst h
    simp only [GetCapacity, hc]
  · intro h
    rcases hc : c.ControllerGetCapabilities ctx { Version := version } callOpts s with
      ⟨⟨res, err⟩, s1⟩
    rw [hc] at h
    simp only at h
    subst h
    simp only [ControllerGetCapabilities, hc]

/-- Witness: against a stub all of whose methods fail with the error
"unavailable", each of the eight operations returns that error and the zero
payload, also where the stub handed back a response next to the error. -/
theorem transport_error_unchanged_witness :
    (CreateVolume ⟨0⟩ (failingStub ⟨"unavailable"⟩) none "vol" 1 0 "ext4" none none [] 0).1 =
      .returned (none, some ⟨"unavailable"⟩) ∧
    (DeleteVolume ⟨0⟩ (failingStub ⟨"unavailable"⟩) none none none [] 0).1 =
      some ⟨"unavailable"⟩ ∧
    (ControllerPublishVolume ⟨0⟩ (failingStub ⟨"unavailable"⟩) none (some ⟨none⟩) none none
      false [] 0).1 = .returned (none, some ⟨"unavailable"⟩) ∧
    (ControllerUnpublishVolume ⟨0⟩ (failingStub ⟨"unavailable"⟩) none (some ⟨none⟩) none none
      [] 0).1 = some ⟨"unavailable"⟩ ∧
    (ValidateVolumeCapabilities ⟨0⟩ (failingStub ⟨"unavailable"⟩) none (some (vol 1))
      (some []) [] 0).1 = (none, some ⟨"unavailable"⟩) ∧
    (ListVolumes ⟨0⟩ (failingStub ⟨"unavailable"⟩) none 10 "" [] 0).1 =
      .returned (none, "", some ⟨"unavailable"⟩) ∧
    (GetCapacity ⟨0⟩ (failingStub ⟨"unavailable"⟩) none [] 0).1 =
      .returned (0, some ⟨"unavailable"⟩) ∧
    (ControllerGetCapabilities ⟨0⟩ (failingStub ⟨"unavailable"⟩) none [] 0).1 =
      .returned (none, some ⟨"unavailable"⟩) :=
  have h := transport_error_unchanged ⟨0⟩ (failingStub ⟨"unavailable"⟩) none [] 0
    ⟨"unavailable"⟩ "vol" 1 0 "ext4" none none none ⟨none⟩ none none false (vol 1) [] 10 ""
  ⟨h.1 rfl, h.2.1 rfl, h.2.2.1 rfl, h.2.2.2.1 rfl, h.2.2.2.2.1 rfl, h.2.2.2.2.2.1 rfl,
    h.2.2.2.2.2.2.1 rfl, h.2.2.2.2.2.2.2 rfl⟩

/-! ## Capacity and capabilities -/

/-- C10: when the stub succeeds with a response whose nested result is
present, `GetCapacity` returns exactly the TotalCapacity of that result and
`ControllerGetCapabilities` returns exactly its capability list, the same
elements in the same order, both with no error. -/
theorem capacity_capabilities_exact {σ : Type} (ctx : Context) (c : ControllerClient σ)
    (version : Option Version) (callOpts : List CallOption) (s : σ) :
    (∀ (res : Option GetCapacityResponse) (result : GetCapacityResponse_Result),
      (c.GetCapacity ctx { Version := version } callOpts s).1 = (res, none) →
      GetResult res = some result →
      (GetCapacity ctx c version callOpts s).1 =
        .returned (result.TotalCapacity, none)) ∧
    (∀ (res : Option ControllerGetCapabilitiesResponse)
        (result : ControllerGetCapabilitiesResponse_Result),
      (c.ControllerGetCapabilities ctx { Version := version } callOpts s).1 = (res, none) →
      GetResult res = some result →
      (ControllerGetCapabilities ctx c version callOpts s).1 =
        .returned (result.Capabilities, none)) := by
  constructor
  · intro res result hcall hres
    rcases hc : c.GetCapacity ctx { Version := version } callOpts s with ⟨⟨res1, err⟩, s1⟩
    rw [hc] at hcall
    simp only [Prod.mk.injEq] at hcall
    obtain ⟨h1, h2⟩ := hcall
    subst h1 h2
    simp only [GetCapacity, hc, hres]
  · intro res result hcall hres
    rcases hc : c.ControllerGetCapabilities ctx { Version := version } callOpts s with
      ⟨⟨res1, err⟩, s1⟩
    rw [hc] at hcall
    simp only [Prod.mk.injEq] at hcall
    obtain ⟨h1, h2⟩ := hcall
    subst h1 h2
    simp only [ControllerGetCapabilities, hc, hres]

/-- Witness: against a stub that reports a capacity of 4096 and three
capability pointers, the second of them nil, `GetCapacity` returns 4096 and
`ControllerGetCapabilities` returns the three pointers in that order. -/
theorem capacity_capabilities_exact_witness :
    (GetCapacity ⟨0⟩ (listingStub emptyResult) none [] 0).1 = .returned (4096, none) ∧
    (ControllerGetCapabilities ⟨0⟩ (listingStub emptyResult) none [] 0).1 =
      .returned (some [some ⟨2⟩, none, some ⟨1⟩], none) :=
  have h := capacity_capabilities_exact ⟨0⟩ (listingStub emptyResult) none [] 0
  ⟨h.1 (some { Result := some { TotalCapacity := 4096 } }) { TotalCapacity := 4096 } rfl rfl,
    h.2 (some { Result := some { Capabilities := some [some ⟨2⟩, none, some ⟨1⟩] } })
      { Capabilities := some [some ⟨2⟩, none, some ⟨1⟩] } rfl rfl⟩

/-! ## The record of the stub after each operation -/

/-- The whole of `DeleteVolume` against a recording stub: the error of the
stub is the result, and the record has one more invocation, of `DeleteVolume`
with the request made of the three arguments. -/
theorem DeleteVolume_run {σ : Type} (ctx : Context) (c : ControllerClient σ)
    (version : Option Version) (volumeID : Option VolumeID)
    (volumeMetadata : Option VolumeMetadata) (callOpts : List CallOption) (s : σ)
    (log : List Call) :
    DeleteVolume ctx (recording c) version volumeID volumeMetadata callOpts (s, log) =
      ((c.DeleteVolume ctx
          { Version := version, VolumeId := volumeID, VolumeMetadata := volumeMetadata }
          callOpts s).1.2,
        ((c.DeleteVolume ctx
          { Version := version, VolumeId := volumeID, VolumeMetadata := volumeMetadata }
          callOpts s).2,
         log ++ [Call.DeleteVolume ctx
          { Version := version, VolumeId := volumeID, VolumeMetadata := volumeMetadata }
          callOpts])) := by
  simp only [DeleteVolume, recording, record]
  split <;> simp_all

/-- The record after `ControllerPublishVolume` with a non-nil volume ID. -/
theorem ControllerPublishVolume_record {σ : Type} (ctx : Context) (c : ControllerClient σ)
    (version : Option Version) (volumeID : VolumeID)
    (volumeMetadata : Option VolumeMetadata) (nodeID : Option NodeID) (readonly : Bool)
    (callOpts : List CallOption) (s : σ) (log : List Call) :
    (ControllerPublishVolume ctx (recording c) version (some volumeID) volumeMetadata nodeID
        readonly callOpts (s, log)).2.2 =
      log ++ [Call.ControllerPublishVolume ctx
        { Version := version, VolumeId := some volumeID, VolumeMetadata := volumeMetadata,
          NodeId := nodeID, Readonly := readonly } callOpts] := by
  simp only [ControllerPublishVolume, recording, record]
  split <;> (try split) <;> (try split) <;> simp_all

/-- The record after `ControllerUnpublishVolume` with a non-nil volume ID. -/
theorem ControllerUnpublishVolume_record {σ : Type} (ctx : Context)
    (c : ControllerClient σ) (version : Option Version) (volumeID : VolumeID)
    (volumeMetadata : Option VolumeMetadata) (nodeID : Option NodeID)
    (callOpts : List CallOption) (s : σ) (log : List Call) :
    (ControllerUnpublishVolume ctx (recording c) version (some volumeID) volumeMetadata
        nodeID callOpts (s, log)).2.2 =
      log ++ [Call.ControllerUnpublishVolume ctx
        { Version := version, VolumeId := some volumeID, VolumeMetadata := volumeMetadata,
          NodeId := nodeID } callOpts] := by
  simp only [ControllerUnpublishVolume, recording, record]
  split <;> (try split) <;> simp_all

/-- The record after `ValidateVolumeCapabilities` with a non-nil volume info
and a non-nil capability list. -/
theorem ValidateVolumeCapabilities_record {σ : Type} (ctx : Context)
    (c : ControllerClient σ) (version : Option Version) (info : VolumeInfo)
    (caps : List (Option VolumeCapability)) (callOpts : List CallOption) (s : σ)
    (log : List Call) :
    (ValidateVolumeCapabilities ctx (recording c) version (some info) (some caps) callOpts
        (s, log)).2.2 =
      log ++ [Call.ValidateVolumeCapabilities ctx
        { Version := version, VolumeInfo := some info, VolumeCapabilities := some caps }
        callOpts] := by
  simp only [ValidateVolumeCapabilities, recording, record]
  split <;> (try split) <;> (try split) <;> simp_all

/-- The record after `ListVolumes`, however the call ends. -/
theorem ListVolumes_record {σ : Type} (ctx : Context) (c : ControllerClient σ)
    (version : Option Version) (maxEntries : Nat) (startingToken : String)
    (callOpts : List CallOption) (s : σ) (log : List Call) :
    (ListVolumes ctx (recording c) version maxEntries startingToken callOpts (s, log)).2.2 =
      log ++ [Call.ListVolumes ctx
        { MaxEntries := maxEntries, StartingToken := startingToken, Version := version }
        callOpts] := by
  simp only [ListVolumes, recording, record]
  split <;> (try split) <;> (try split) <;> (try split) <;> simp_all

/-- The record after `GetCapacity`, however the call ends. -/
theorem GetCapacity_record {σ : Type} (ctx : Context) (c : ControllerClient σ)
    (version : Option Version) (callOpts : List CallOption) (s : σ) (log : List Call) :
    (GetCapacity ctx (recording c) version callOpts (s, log)).2.2 =
      log ++ [Call.GetCapacity ctx { Version := version } callOpts] := by
  simp only [GetCapacity, recording, record]
  split <;> (try split) <;> simp_all

/-- The record after `ControllerGetCapabilities`, however the call ends. -/
theorem ControllerGetCapabilities_record {σ : Type} (ctx : Context)
    (c : ControllerClient σ) (version : Option Version) (callOpts : List CallOption)
    (s : σ) (log : List Call) :
    (ControllerGetCapabilities ctx (recording c) version callOpts (s, log)).2.2 =
      log ++ [Call.ControllerGetCapabilities ctx { Version := version } callOpts] := by
  simp only [ControllerGetCapabilities, recording, record]
  split <;> (try split) <;> simp_all

/-! ## Results passed on as they are -/

/-- C11: when the stub succeeds, `ValidateVolumeCapabilities`, called with a
non-nil volume info and a non-nil capability list, returns the nested result
of the response unchanged and no error; when the response has no nested
result it returns a nil result and no error. -/
theorem ValidateVolumeCapabilities_result {σ : Type} (ctx : Context)
    (c : ControllerClient σ) (version : Option Version) (info : VolumeInfo)
    (caps : List (Option VolumeCapability)) (callOpts : List CallOption) (s : σ)
    (res : Option ValidateVolumeCapabilitiesResponse)
    (hcall : (c.ValidateVolumeCapabilities ctx
      { Version := version, VolumeInfo := some info, VolumeCapabilities := some caps }
      callOpts s).1 = (res, none)) :
    (ValidateVolumeCapabilities ctx c version (some info) (some caps) callOpts s).1 =
      (GetResult res, none) ∧
    (∀ result, GetResult res = some result →
      (ValidateVolumeCapabilities ctx c version (some info) (some caps) callOpts s).1 =
        (some result, none)) ∧
    (GetResult res = none →
      (ValidateVolumeCapabilities ctx c version (some info) (some caps) callOpts s).1 =
        (none, none)) := by
  have key : (ValidateVolumeCapabilities ctx c version (some info) (some caps) callOpts
      s).1 = (GetResult res, none) := by
    rcases hc : c.ValidateVolumeCapabilities ctx
      { Version := version, VolumeInfo := some info, VolumeCapabilities := some caps }
      callOpts s with ⟨⟨res1, err⟩, s1⟩
    rw [hc] at hcall
    simp only [Prod.mk.injEq] at hcall
    obtain ⟨h1, h2⟩ := hcall
    subst h1 h2
    simp [ValidateVolumeCapabilities, hc]
  refine ⟨key, ?_, ?_⟩
  · intro result hres
    rw [key, hres]
  · intro hres
    rw [key, hres]

/-- Witness: a stub that confirms the capabilities has its result returned as
it is, and a stub that answers without nested result gets a nil result and
no error. -/
theorem ValidateVolumeCapabilities_result_witness :
    (ValidateVolumeCapabilities ⟨0⟩ supportedStub none (some (vol 1)) (some []) [] 0).1 =
      (some { Supported := true, Message := "ok" }, none) ∧
    (ValidateVolumeCapabilities ⟨0⟩ noResultStub none (some (vol 1)) (some []) [] 0).1 =
      (none, none) :=
  ⟨(ValidateVolumeCapabilities_result ⟨0⟩ supportedStub none (vol 1) [] [] 0
      (some { Result := some { Supported := true, Message := "ok" } }) rfl).2.1
      { Supported := true, Message := "ok" } rfl,
    (ValidateVolumeCapabilities_result ⟨0⟩ noResultStub none (vol 1) [] [] 0
      (some { Result := none }) rfl).2.2 rfl⟩

/-- C12: `DeleteVolume` validates nothing: for every volume ID, nil included,
and every volume metadata it calls the stub once, with a request carrying
exactly the given version, volume ID and volume metadata, and it returns no
error exactly when the stub returns none, and the error of the stub
otherwise. -/
theorem DeleteVolume_passthrough {σ : Type} (ctx : Context) (c : ControllerClient σ)
    (version : Option Version) (volumeID : Option VolumeID)
    (volumeMetadata : Option VolumeMetadata) (callOpts : List CallOption) (s : σ) :
    (DeleteVolume ctx (recording c) version volumeID volumeMetadata callOpts (s, [])).2.2 =
      [Call.DeleteVolume ctx
        { Version := version, VolumeId := volumeID, VolumeMetadata := volumeMetadata }
        callOpts] ∧
    invocationCount
      (DeleteVolume ctx (recording c) version volumeID volumeMetadata callOpts (s, [])).2 = 1 ∧
    (DeleteVolume ctx (recording c) version volumeID volumeMetadata callOpts (s, [])).1 =
      (c.DeleteVolume ctx
        { Version := version, VolumeId := volumeID, VolumeMetadata := volumeMetadata }
        callOpts s).1.2 ∧
    (DeleteVolume ctx (recording c) version none volumeMetadata callOpts (s, [])).2.2 =
      [Call.DeleteVolume ctx
        { Version := version, VolumeId := none, VolumeMetadata := volumeMetadata }
        callOpts] := by
  refine ⟨?_, ?_, ?_, ?_⟩
  · rw [DeleteVolume_run]
    rfl
  · rw [DeleteVolume_run]
    rfl
  · rw [DeleteVolume_run]
  · rw [DeleteVolume_run]
    rfl

/-- Decoding the request built by `CreateVolume` gives back the arguments. -/
theorem CreateVolume_decode_req (version : Option Version) (name : String)
    (requiredBytes limitBytes : Nat) (fsType : String) (mountFlags : Slice String)
    (params : Option StringMap) :
    CreateVolume.decode
        (CreateVolume.req version name requiredBytes limitBytes fsType mountFlags params) =
      { name := name, version := version, params := params,
        requiredBytes := requiredBytes, limitBytes := limitBytes,
        fsType := fsType, mountFlags := mountFlags.toList } := by
  cases mountFlags <;> simp only [CreateVolume.decode, CreateVolume.req] <;>
    split_ifs <;> simp_all [Slice.toList, len]

/-- C13: round trip of the request built by `CreateVolume`: for all arguments,
decoding the request handed to the stub gives back the same name, version,
parameters, requiredBytes, limitBytes, fsType and mount flags, a nil and an
empty flag list being the same list of flags. -/
theorem CreateVolume_round_trip {σ : Type} (ctx : Context) (c : ControllerClient σ)
    (version : Option Version) (name : String) (requiredBytes limitBytes : Nat)
    (fsType : String) (mountFlags : Slice String) (params : Option StringMap)
    (callOpts : List CallOption) (s : σ) :
    ∃ req : CreateVolumeRequest,
      (CreateVolume ctx (recording c) version name requiredBytes limitBytes fsType
          mountFlags params callOpts (s, [])).2.2 = [Call.CreateVolume ctx req callOpts] ∧
      CreateVolume.decode req =
        { name := name, version := version, params := params,
          requiredBytes := requiredBytes, limitBytes := limitBytes,
          fsType := fsType, mountFlags := mountFlags.toList } :=
  ⟨_, CreateVolume_record ctx c version name requiredBytes limitBytes fsType mountFlags
      params callOpts s [],
    CreateVolume_decode_req version name requiredBytes limitBytes fsType mountFlags params⟩

/-! ## One attempt, arguments unchanged -/

/-- C15: each of the eight operations is a single attempt. Against a recording
stub that starts with an empty record, the record after the operation is
empty when the local validation fails, and otherwise holds exactly one
invocation, of the stub method of that operation, with the context and the
call options of the caller. -/
theorem single_attempt {σ : Type} (ctx : Context) (c : ControllerClient σ)
    (version : Option Version) (callOpts : List CallOption) (s : σ)
    (name : String) (requiredBytes limitBytes : Nat) (fsType : String)
    (mountFlags : Slice String) (params : Option StringMap)
    (volumeID : Option VolumeID) (volumeMetadata : Option VolumeMetadata)
    (nodeID : Option NodeID) (readonly : Bool) (volumeInfo : Option VolumeInfo)
    (volumeCapabilities : Slice (Option VolumeCapability))
    (maxEntries : Nat) (startingToken : String) :
    (CreateVolume ctx (recording c) version name requiredBytes limitBytes fsType mountFlags
        params callOpts (s, [])).2.2 =
      [Call.CreateVolume ctx
        (CreateVolume.req version name requiredBytes limitBytes fsType mountFlags params)
        callOpts] ∧
    (DeleteVolume ctx (recording c) version volumeID volumeMetadata callOpts (s, [])).2.2 =
      [Call.DeleteVolume ctx
        { Version := version, VolumeId := volumeID, VolumeMetadata := volumeMetadata }
        callOpts] ∧
    (ControllerPublishVolume ctx (recording c) version volumeID volumeMetadata nodeID
        readonly callOpts (s, [])).2.2 =
      (if volumeID = none then []
       else [Call.ControllerPublishVolume ctx
        { Version := version, VolumeId := volumeID, VolumeMetadata := volumeMetadata,
          NodeId := nodeID, Readonly := readonly } callOpts]) ∧
    (ControllerUnpublishVolume ctx (recording c) version volumeID volumeMetadata nodeID
        callOpts (s, [])).2.2 =
      (if volumeID = none then []
       else [Call.ControllerUnpublishVolume ctx
        { Version := version, VolumeId := volumeID, VolumeMetadata := volumeMetadata,
          NodeId := nodeID } callOpts]) ∧
    (ValidateVolumeCapabilities ctx (recording c) version volumeInfo volumeCapabilities
        callOpts (s, [])).2.2 =
      (if volumeInfo = none ∨ volumeCapabilities = none then []
       else [Call.ValidateVolumeCapabilities ctx
        { Version := version, VolumeInfo := volumeInfo,
          VolumeCapabilities := volumeCapabilities } callOpts]) ∧
    (ListVolumes ctx (recording c) version maxEntries startingToken callOpts (s, [])).2.2 =
      [Call.ListVolumes ctx
        { MaxEntries := maxEntries, StartingToken := startingToken, Version := version }
        callOpts] ∧
    (GetCapacity ctx (recording c) version callOpts (s, [])).2.2 =
      [Call.GetCapacity ctx { Version := version } callOpts] ∧
    (ControllerGetCapabilities ctx (recording c) version callOpts (s, [])).2.2 =
      [Call.ControllerGetCapabilities ctx { Version := version } callOpts] := by
  refine ⟨?_, ?_, ?_, ?_, ?_, ?_, ?_, ?_⟩
  · rw [CreateVolume_record]
    rfl
  · rw [DeleteVolume_run]
    rfl
  · cases volumeID with
    | none => simp [ControllerPublishVolume]
    | some v =>
      rw [ControllerPublishVolume_record]
      simp
  · cases volumeID with
    | none => simp [ControllerUnpublishVolume]
    | some v =>
      rw [ControllerUnpublishVolume_record]
      simp
  · cases volumeInfo with
    | none => simp [ValidateVolumeCapabilities]
    | some info =>
      cases volumeCapabilities with
      | none => simp [ValidateVolumeCapabilities]
      | some caps =>
        rw [ValidateVolumeCapabilities_record]
        simp
  · rw [ListVolumes_record]
    rfl
  · rw [GetCapacity_record]
    rfl
  · rw [ControllerGetCapabilities_record]
    rfl

/-- C16: the arguments reach the stub unchanged. The request every operation
hands to the stub carries the version of the caller; the request of
`ControllerPublishVolume` (volume ID not nil) carries exactly the given volume
ID, volume metadata, node ID and readonly flag, that of
`ControllerUnpublishVolume` exactly the given volume ID, volume metadata and
node ID, and that of `ListVolumes` exactly the given maxEntries and
startingToken. -/
theorem arguments_unchanged {σ : Type} (ctx : Context) (c : ControllerClient σ)
    (version : Option Version) (callOpts : List CallOption) (s : σ)
    (name : String) (requiredBytes limitBytes : Nat) (fsType : String)
    (mountFlags : Slice String) (params : Option StringMap)
    (anyVolumeID : Option VolumeID) (volumeID : VolumeID)
    (volumeMetadata : Option VolumeMetadata) (nodeID : Option NodeID) (readonly : Bool)
    (info : VolumeInfo) (caps : List (Option VolumeCapability))
    (maxEntries : Nat) (startingToken : String) :
    (∃ req, (CreateVolume ctx (recording c) version name requiredBytes limitBytes fsType
        mountFlags params callOpts (s, [])).2.2 = [Call.CreateVolume ctx req callOpts] ∧
      req.Version = version ∧ req.Name = name ∧ req.Parameters = params) ∧
    (∃ req, (DeleteVolume ctx (recording c) version anyVolumeID volumeMetadata callOpts
        (s, [])).2.2 = [Call.DeleteVolume ctx req callOpts] ∧
      req.Version = version ∧ req.VolumeId = anyVolumeID ∧
      req.VolumeMetadata = volumeMetadata) ∧
    (∃ req, (ControllerPublishVolume ctx (recording c) version (some volumeID)
        volumeMetadata nodeID readonly callOpts (s, [])).2.2 =
          [Call.ControllerPublishVolume ctx req callOpts] ∧
      req.Version = version ∧ req.VolumeId = some volumeID ∧
      req.VolumeMetadata = volumeMetadata ∧ req.NodeId = nodeID ∧
      req.Readonly = readonly) ∧
    (∃ req, (ControllerUnpublishVolume ctx (recording c) version (some volumeID)
        volumeMetadata nodeID callOpts (s, [])).2.2 =
          [Call.ControllerUnpublishVolume ctx req callOpts] ∧
      req.Version = version ∧ req.VolumeId = some volumeID ∧
      req.VolumeMetadata = volumeMetadata ∧ req.NodeId = nodeID) ∧
    (∃ req, (ValidateVolumeCapabilities ctx (recording c) version (some info) (some caps)
        callOpts (s, [])).2.2 = [Call.ValidateVolumeCapabilities ctx req callOpts] ∧
      req.Version = version ∧ req.VolumeInfo = some info ∧
      req.VolumeCapabilities = some caps) ∧
    (∃ req, (ListVolumes ctx (recording c) version maxEntries startingToken callOpts
        (s, [])).2.2 = [Call.ListVolumes ctx req callOpts] ∧
      req.Version = version ∧ req.MaxEntries = maxEntries ∧
      req.StartingToken = startingToken) ∧
    (∃ req, (GetCapacity ctx (recording c) version callOpts (s, [])).2.2 =
        [Call.GetCapacity ctx req callOpts] ∧ req.Version = version) ∧
    (∃ req, (ControllerGetCapabilities ctx (recording c) version callOpts (s, [])).2.2 =
        [Call.ControllerGetCapabilities ctx req callOpts] ∧ req.Version = version) := by
  refine ⟨⟨_, CreateVolume_record ctx c version name requiredBytes limitBytes fsType
      mountFlags params callOpts s [], ?_⟩,
    ⟨_, by rw [DeleteVolume_run]; rfl, rfl, rfl, rfl⟩,
    ⟨_, ControllerPublishVolume_record ctx c version volumeID volumeMetadata nodeID readonly
      callOpts s [], rfl, rfl, rfl, rfl, rfl⟩,
    ⟨_, ControllerUnpublishVolume_record ctx c version volumeID volumeMetadata nodeID
      callOpts s [], rfl, rfl, rfl, rfl⟩,
    ⟨_, ValidateVolumeCapabilities_record ctx c version info caps callOpts s [],
      rfl, rfl, rfl⟩,
    ⟨_, ListVolumes_record ctx c version maxEntries startingToken callOpts s [],
      rfl, rfl, rfl⟩,
    ⟨_, GetCapacity_record ctx c version callOpts s [], rfl⟩,
    ⟨_, ControllerGetCapabilities_record ctx c version callOpts s [], rfl⟩⟩
  have h := CreateVolume_decode_req version name requiredBytes limitBytes fsType
    mountFlags params
  simp only [CreateVolume.decode, CreateVolumeFields.mk.injEq] at h
  exact ⟨h.2.1, h.1, h.2.2.1⟩

/-- C19: the order of the two checks of `ValidateVolumeCapabilities`: when
both the volume info and the capability list are nil, the error returned is
`ErrVolumeInfoRequired`, which is not `ErrVolumeCapabilityRequired`, and the
stub is not called. -/
theorem ValidateVolumeCapabilities_order {σ : Type} (ctx : Context)
    (c : ControllerClient σ) (version : Option Version) (callOpts : List CallOption)
    (s : σ) :
    ValidateVolumeCapabilities ctx c version none none callOpts s =
      ((none, some ErrVolumeInfoRequired), s) ∧
    (ValidateVolumeCapabilities ctx c version none none callOpts s).1.2 ≠
      some ErrVolumeCapabilityRequired := by
  simp [ValidateVolumeCapabilities, ErrVolumeInfoRequired, ErrVolumeCapabilityRequired]

/-! ## Where the local errors are raised -/

/-- C14 fails for `ListVolumes`: on a successful response whose second entry is
nil the stub itself returns no error, `ListVolumes` returns
`ErrNilVolumeInfo`, and the invocation count of the stub is 1, not 0. -/
theorem ListVolumes_error_after_call :
    ((listingStub holedResult).ListVolumes ⟨0⟩
      { MaxEntries := 10, StartingToken := "", Version := none } [] 0).1.2 = none ∧
    (ListVolumes ⟨0⟩ (recording (listingStub holedResult)) none 10 "" [] (0, [])).1 =
      .returned (none, "", some ErrNilVolumeInfo) ∧
    invocationCount
      (ListVolumes ⟨0⟩ (recording (listingStub holedResult)) none 10 "" [] (0, [])).2 = 1 ∧
    invocationCount
      (ListVolumes ⟨0⟩ (recording (listingStub holedResult)) none 10 "" [] (0, [])).2 ≠ 0 := by
  refine ⟨rfl, ?_, ?_, ?_⟩
  · exact ListVolumes_of_result ⟨0⟩ (recording (listingStub holedResult)) none 10 "" []
      (0, []) (some { Result := some holedResult }) holedResult rfl rfl
  · simp [invocationCount, ListVolumes_record]
  · simp [invocationCount, ListVolumes_record]

/-- C14 as amended: the three errors of the local validation are raised before
the stub is called. Whenever `ControllerPublishVolume` or
`ControllerUnpublishVolume` returns `ErrVolumeIDRequired`, or
`ValidateVolumeCapabilities` returns `ErrVolumeInfoRequired` or
`ErrVolumeCapabilityRequired`, and the error is its own (the stub does not
answer the request with that error), the invocation count of the stub is 0.
`ListVolumes` calls the stub before it looks at the entries: its invocation
count is always 1. -/
theorem validation_errors_before_call {σ : Type} (ctx : Context) (c : ControllerClient σ)
    (version : Option Version) (callOpts : List CallOption) (s : σ)
    (volumeID : Option VolumeID) (volumeMetadata : Option VolumeMetadata)
    (nodeID : Option NodeID) (readonly : Bool) (volumeInfo : Option VolumeInfo)
    (volumeCapabilities : Slice (Option VolumeCapability))
    (maxEntries : Nat) (startingToken : String) :
    ((ControllerPublishVolume ctx (recording c) version volumeID volumeMetadata nodeID
          readonly callOpts (s, [])).1 = .returned (none, some ErrVolumeIDRequired) →
      (c.ControllerPublishVolume ctx
        { Version := version, VolumeId := volumeID, VolumeMetadata := volumeMetadata,
          NodeId := nodeID, Readonly := readonly } callOpts s).1.2 ≠
        some ErrVolumeIDRequired →
      invocationCount (ControllerPublishVolume ctx (recording c) version volumeID
        volumeMetadata nodeID readonly callOpts (s, [])).2 = 0) ∧
    ((ControllerUnpublishVolume ctx (recording c) version volumeID volumeMetadata nodeID
          callOpts (s, [])).1 = some ErrVolumeIDRequired →
      (c.ControllerUnpublishVolume ctx
        { Version := version, VolumeId := volumeID, VolumeMetadata := volumeMetadata,
          NodeId := nodeID } callOpts s).1.2 ≠ some ErrVolumeIDRequired →
      invocationCount (ControllerUnpublishVolume ctx (recording c) version volumeID
        volumeMetadata nodeID callOpts (s, [])).2 = 0) ∧
    (∀ e : Error, e = ErrVolumeInfoRequired ∨ e = ErrVolumeCapabilityRequired →
      (ValidateVolumeCapabilities ctx (recording c) version volumeInfo volumeCapabilities
          callOpts (s, [])).1 = (none, some e) →
      (c.ValidateVolumeCapabilities ctx
        { Version := version, VolumeInfo := volumeInfo,
          VolumeCapabilities := volumeCapabilities } callOpts s).1.2 ≠ some e →
      invocationCount (ValidateVolumeCapabilities ctx (recording c) version volumeInfo
        volumeCapabilities callOpts (s, [])).2 = 0) ∧
    invocationCount
      (ListVolumes ctx (recording c) version maxEntries startingToken callOpts (s, [])).2 =
        1 := by
  refine ⟨?_, ?_, ?_, ?_⟩
  · cases volumeID with
    | none => simp [ControllerPublishVolume, invocationCount]
    | some v =>
      intro hret hown
      exfalso
      apply hown
      rcases hc : c.ControllerPublishVolume ctx
        { Version := version, VolumeId := some v, VolumeMetadata := volumeMetadata,
          NodeId := nodeID, Readonly := readonly } callOpts s with ⟨⟨res, err⟩, s1⟩
      simp only [ControllerPublishVolume, recording, record, hc] at hret
      cases err with
      | some e => simpa using hret
      | none => cases hres : GetResult res <;> simp [hres] at hret
  · cases volumeID with
    | none => simp [ControllerUnpublishVolume, invocationCount]
    | some v =>
      intro hret hown
      exfalso
      apply hown
      rcases hc : c.ControllerUnpublishVolume ctx
        { Version := version, VolumeId := some v, VolumeMetadata := volumeMetadata,
          NodeId := nodeID } callOpts s with ⟨⟨res, err⟩, s1⟩
      simp only [ControllerUnpublishVolume, recording, record, hc] at hret
      cases err with
      | some e => simpa using hret
      | none => simp at hret
  · intro e _
    cases volumeInfo with
    | none => simp [ValidateVolumeCapabilities, invocationCount]
    | some info =>
      cases volumeCapabilities with
      | none => simp [ValidateVolumeCapabilities, invocationCount]
      | some caps =>
        intro hret hown
        exfalso
        apply hown
        rcases hc : c.ValidateVolumeCapabilities ctx
          { Version := version, VolumeInfo := some info, VolumeCapabilities := some caps }
          callOpts s with ⟨⟨res, err⟩, s1⟩
        simp only [ValidateVolumeCapabilities, recording, record, hc] at hret
        cases err with
        | some e1 => simpa using hret
        | none => simp at hret
  · simp [invocationCount, ListVolumes_record]

/-- Witness: against a stub that would fail every call with "unavailable",
the operations called with nil arguments return their own validation errors
and leave the invocation count at 0, while `ListVolumes` leaves it at 1. -/
theorem validation_errors_before_call_witness :
    invocationCount (ControllerPublishVolume ⟨0⟩ (recording (failingStub ⟨"unavailable"⟩))
      none none none none false [] (0, [])).2 = 0 ∧
    invocationCount (ControllerUnpublishVolume ⟨0⟩ (recording (failingStub ⟨"unavailable"⟩))
      none none none none [] (0, [])).2 = 0 ∧
    invocationCount (ValidateVolumeCapabilities ⟨0⟩ (recording (failingStub ⟨"unavailable"⟩))
      none none none [] (0, [])).2 = 0 ∧
    invocationCount (ListVolumes ⟨0⟩ (recording (failingStub ⟨"unavailable"⟩))
      none 10 "" [] (0, [])).2 = 1 :=
  have h := validation_errors_before_call ⟨0⟩ (failingStub ⟨"unavailable"⟩) none [] 0
    none none none false none none 10 ""
  ⟨h.1 rfl (by simp [failingStub, answer, ErrVolumeIDRequired]),
    h.2.1 rfl (by simp [failingStub, answer, ErrVolumeIDRequired]),
    h.2.2.1 ErrVolumeInfoRequired (Or.inl rfl) rfl
      (by simp [failingStub, answer, ErrVolumeInfoRequired]),
    h.2.2.2⟩

/-! ## The list returned by `ListVolumes` -/

/-- C17: whenever `ListVolumes` returns no error, on a successful stub response
with a present result, every element of the returned volume list is
non-nil. -/
theorem ListVolumes_volumes_non_nil {σ : Type} (ctx : Context) (c : ControllerClient σ)
    (version : Option Version) (maxEntries : Nat) (startingToken : String)
    (callOpts : List CallOption) (s : σ) (res : Option ListVolumesResponse)
    (result : ListVolumesResponse_Result)
    (volumes : Slice (Option VolumeInfo)) (nextToken : String)
    (hcall : (c.ListVolumes ctx
      { MaxEntries := maxEntries, StartingToken := startingToken, Version := version }
      callOpts s).1 = (res, none))
    (hres : GetResult res = some result)
    (hret : (ListVolumes ctx c version maxEntries startingToken callOpts s).1 =
      .returned (volumes, nextToken, none)) :
    ∀ v ∈ volumes.toList, v ≠ none := by
  rw [ListVolumes_of_result ctx c version maxEntries startingToken callOpts s res result
    hcall hres] at hret
  by_cases h0 : len result.Entries = 0
  · rw [if_pos h0] at hret
    simp only [Outcome.returned.injEq, Prod.mk.injEq] at hret
    intro v hv
    rw [← hret.1] at hv
    simp [Slice.toList] at hv
  · rw [if_neg h0] at hret
    by_cases hall : ∀ e ∈ result.Entries.toList, GetVolumeInfo e ≠ none
    · rw [if_pos hall] at hret
      simp only [Outcome.returned.injEq, Prod.mk.injEq] at hret
      intro v hv
      rw [← hret.1] at hv
      simp only [Slice.toList, List.mem_map] at hv
      obtain ⟨e, he, hev⟩ := hv
      rw [← hev]
      exact hall e he
    · rw [if_neg hall] at hret
      simp at hret

/-- Witness: `ListVolumes` returns two volume infos for a response of two
entries, and both are non-nil. -/
theorem ListVolumes_volumes_non_nil_witness :
    (ListVolumes ⟨0⟩ (listingStub fullResult) none 10 "" [] 0).1 =
      .returned (some [some (vol 1), some (vol 2)], "next", none) ∧
    some (vol 1) ≠ none ∧ some (vol 2) ≠ none :=
  have h := ListVolumes_volumes_non_nil ⟨0⟩ (listingStub fullResult) none 10 "" [] 0
    (some { Result := some fullResult }) fullResult
    (some [some (vol 1), some (vol 2)]) "next" rfl rfl rfl
  ⟨rfl, h (some (vol 1)) (by simp [Slice.toList]), h (some (vol 2)) (by simp [Slice.toList])⟩

/-- C18: when `ListVolumes` fails with `ErrNilVolumeInfo` it returns the empty
string as next token, whatever next token the response carried, and a nil
volume list. -/
theorem ListVolumes_error_token {σ : Type} (ctx : Context) (c : ControllerClient σ)
    (version : Option Version) (maxEntries : Nat) (startingToken : String)
    (callOpts : List CallOption) (s : σ)
    (volumes : Slice (Option VolumeInfo)) (nextToken : String)
    (hret : (ListVolumes ctx c version maxEntries startingToken callOpts s).1 =
      .returned (volumes, nextToken, some ErrNilVolumeInfo)) :
    nextToken = "" ∧ volumes = none := by
  rcases hc : c.ListVolumes ctx
      { MaxEntries := maxEntries, StartingToken := startingToken, Version := version }
      callOpts s with ⟨⟨res, err⟩, s1⟩
  cases err with
  | some e =>
    simp only [ListVolumes, hc, Outcome.returned.injEq, Prod.mk.injEq] at hret
    exact ⟨hret.2.1.symm, hret.1.symm⟩
  | none =>
    cases hres : GetResult res with
    | none => simp [ListVolumes, hc, hres] at hret
    | some result =>
      have hc1 : (c.ListVolumes ctx
          { MaxEntries := maxEntries, StartingToken := startingToken, Version := version }
          callOpts s).1 = (res, none) := by rw [hc]
      rw [ListVolumes_of_result ctx c version maxEntries startingToken callOpts s res result
        hc1 hres] at hret
      by_cases h0 : len result.Entries = 0
      · rw [if_pos h0] at hret
        simp at hret
      · rw [if_neg h0] at hret
        by_cases hall : ∀ e ∈ result.Entries.toList, GetVolumeInfo e ≠ none
        · rw [if_pos hall] at hret
          simp at hret
        · rw [if_neg hall] at hret
          simp only [Outcome.returned.injEq, Prod.mk.injEq] at hret
          exact ⟨hret.2.1.symm, hret.1.symm⟩

/-- Witness: the response with a nil entry carries the next token "next", and
the token `ListVolumes` returns with `ErrNilVolumeInfo` is the empty string. -/
theorem ListVolumes_error_token_witness :
    holedResult.NextToken = "next" ∧
    (ListVolumes ⟨0⟩ (listingStub holedResult) none 10 "" [] 0).1 =
      .returned (none, "", some ErrNilVolumeInfo) ∧
    (("" : String) = "" ∧ (none : Slice (Option VolumeInfo)) = none) :=
  ⟨rfl,
    ListVolumes_of_result ⟨0⟩ (listingStub holedResult) none 10 "" [] 0
      (some { Result := some holedResult }) holedResult rfl rfl,
    ListVolumes_error_token ⟨0⟩ (listingStub holedResult) none 10 "" [] 0 none ""
      (ListVolumes_of_result ⟨0⟩ (listingStub holedResult) none 10 "" [] 0
        (some { Result := some holedResult }) holedResult rfl rfl)⟩

end Gocsi
